import Mathlib

/-!
Verification of the timeline drag/ghost placement engine and the scene
synchronization engine of the video-composition editor.

The definitions below are shallow embeddings of the JavaScript source:
`src/components/Timeline/TimelineRow.jsx` (type compatibility, drop
handlers, gap scan, ghost defaults) and
`src/mobx/store-modules/refreshElements.js` (scene synchronization).
Times are modelled as integers (milliseconds), the retained fabric canvas
as a list of element ids in stack order, and the stable JavaScript
`Array.prototype.sort` as `List.insertionSort` over the total preorder
induced by the comparator.  Store methods that live outside the two
source files are modelled from the specification and marked as such.
-/

/-- The set of mixable media kinds, from `areTypesCompatible` in
`TimelineRow.jsx`: `const mixableTypes = ['audio', 'video', 'imageUrl', 'image']`. -/
def mixableTypes : List String := ["audio", "video", "imageUrl", "image"]

/-- Shallow embedding of `areTypesCompatible(type1, type2)` from
`TimelineRow.jsx` lines 29-46: subtitles only with subtitles, animation
with anything except subtitles, the four media kinds mutually mixable. -/
def areTypesCompatible (type1 type2 : String) : Bool :=
  let isType1Subtitle := type1 == "text"
  let isType2Subtitle := type2 == "text"
  if isType1Subtitle || isType2Subtitle then
    isType1Subtitle && isType2Subtitle
  else if type1 == "animation" || type2 == "animation" then
    true
  else
    mixableTypes.contains type1 && mixableTypes.contains type2

/-- The declared element kinds of the data model (spec section 3). -/
inductive Kind where
  | video
  | image
  | imageUrl
  | audio
  | text
  | animation
deriving DecidableEq, Fintype, Repr

/-- The string tag each declared kind carries in the source. -/
def Kind.str : Kind → String
  | .video => "video"
  | .image => "image"
  | .imageUrl => "imageUrl"
  | .audio => "audio"
  | .text => "text"
  | .animation => "animation"

/-- The policy table of spec section 4.1, written from the words of the
spec: text only with text; animation with every kind except text; audio,
video, imageUrl and image mutually compatible. -/
def policyCompatible : Kind → Kind → Bool
  | .text, .text => true
  | .text, _ => false
  | _, .text => false
  | _, _ => true

/-- The list of the declared kind strings, for quantifying over kinds
that lie outside the declared set. -/
def declaredKindStrings : List String :=
  ["video", "image", "imageUrl", "audio", "text", "animation"]

/-! ## Single and multi element move commits (TimelineRow.jsx drop handler) -/

/-- A time range of a placed element, in milliseconds. -/
structure TimeFrame where
  start : Int
  endTime : Int
deriving DecidableEq, Repr

/-- A timeline element as far as the drop handlers observe it: id, kind
tag, row index and time range. -/
structure TElem where
  id : Nat
  type : String
  row : Int
  timeFrame : TimeFrame
deriving DecidableEq, Repr

/-- Duration of an element, `timeFrame.end - timeFrame.start`. -/
def TElem.duration (e : TElem) : Int := e.timeFrame.endTime - e.timeFrame.start

/-- Modelled from the spec: `store.finishGhostDrag(finalPosition, rowIndex)`
is defined outside the two source files; spec section 4.3 rule 1 says the
resolver clamps the candidate start to `[0, maxTime - duration]` and
commits the dragged element there, preserving its duration. -/
def finishGhostDrag (maxTime : Int) (elems : List TElem) (draggedId : Nat)
    (finalPosition targetRow : Int) : List TElem :=
  elems.map fun e =>
    if e.id = draggedId then
      let duration := e.timeFrame.endTime - e.timeFrame.start
      let newStart := max 0 (min (maxTime - duration) finalPosition)
      { e with row := targetRow, timeFrame := ⟨newStart, newStart + duration⟩ }
    else e

/-- Shallow embedding of the single-ghost branch of the `drop` handler in
`TimelineRow.jsx` lines 574-607: compatibility against the first element
of the row, the delta-based `finalPosition` clamped to `[0, maxTime]`,
and `finishGhostDrag` called only when compatible. -/
def singleGhostDrop (maxTime : Int) (rowType : Option String) (elems : List TElem)
    (dragged : TElem) (initialElementStart deltaTime targetRow : Int) : List TElem :=
  let isCompatible :=
    match rowType with
    | none => true
    | some rt => areTypesCompatible rt dragged.type
  if isCompatible then
    let finalPosition := max 0 (min maxTime (initialElementStart + deltaTime))
    finishGhostDrag maxTime elems dragged.id finalPosition targetRow
  else
    elems

/-- Modelled from the spec: `store.finishMultiGhostDrag(finalPosition)` is
defined outside the two source files; spec section 4.2 says the same
pointer delta is applied uniformly to every selected element to preserve
relative offsets, the delta being the committed final position of the
dragged element minus its initial start. -/
def finishMultiGhostDrag (initialStarts : List Int) (draggedIdx : Nat)
    (finalPosition : Int) : List Int :=
  initialStarts.map fun st => st + (finalPosition - initialStarts.getD draggedIdx 0)

/-- Shallow embedding of the multi-ghost branch of the `drop` handler in
`TimelineRow.jsx` lines 553-570: the final position of the dragged
element is its initial start plus the pointer delta, clamped to
`[0, maxTime]`, then handed to `finishMultiGhostDrag`. -/
def multiGhostDrop (maxTime : Int) (initialStarts : List Int) (draggedIdx : Nat)
    (deltaTime : Int) : List Int :=
  let finalPosition :=
    max 0 (min maxTime (initialStarts.getD draggedIdx 0 + deltaTime))
  finishMultiGhostDrag initialStarts draggedIdx finalPosition

/-! ## Gallery image fallback gap scan (TimelineRow.jsx lines 644-690) -/

/-- An element of the target row as the gap scan sees it: its time range. -/
structure GapElem where
  start : Int
  endTime : Int
deriving DecidableEq, Repr

/-- Orders row elements by start time, the comparator of
`sort((a, b) => a.timeFrame.start - b.timeFrame.start)`. -/
def startLE (a b : GapElem) : Prop := a.start ≤ b.start

instance : DecidableRel startLE := fun a b => Int.decLe a.start b.start

/-- Stable sort of the row elements by start time, modelling the stable
JavaScript `Array.prototype.sort`. -/
def sortByStart (l : List GapElem) : List GapElem := List.insertionSort startLE l

/-- Shallow embedding of the gap-scan loop of the gallery-image fallback:
`for (let i = 0; i <= sortedElements.length; i++)` with
`currentStart = i === 0 ? 0 : sorted[i-1].end` and
`nextStart = i === length ? maxTime : sorted[i].start`, returning the
first `currentStart` whose gap is at least `threshold` wide. -/
def scanGaps (threshold maxTime prevEnd : Int) : List GapElem → Option Int
  | [] => if maxTime - prevEnd ≥ threshold then some prevEnd else none
  | g :: rest =>
    if g.start - prevEnd ≥ threshold then some prevEnd
    else scanGaps threshold maxTime g.endTime rest

/-- The gap sequence of a sorted row: the region before the first
element, the region between consecutive elements, and the region after
the last element up to `maxTime`. -/
def gapsOf (prevEnd maxTime : Int) : List GapElem → List (Int × Int)
  | [] => [(prevEnd, maxTime)]
  | g :: rest => (prevEnd, g.start) :: gapsOf g.endTime maxTime rest

/-- The first-fit rule as the spec words it: the first gap whose width is
at least the threshold receives the element at the gap start. -/
def specFirstGap (threshold maxTime : Int) (sorted : List GapElem) : Option Int :=
  ((gapsOf 0 maxTime sorted).find? fun g => threshold ≤ g.2 - g.1).map Prod.fst

/-- Outcome of the fallback drop: either the element is placed on a row
at a start time, or rows from the given index down are shifted first and
the element is placed on the emptied row. -/
inductive DropResult where
  | place (row startTime : Int)
  | shiftPlace (row startTime : Int)
deriving DecidableEq, Repr

/-- Shallow embedding of the gallery-image fallback drop of
`TimelineRow.jsx` lines 644-690: an empty row takes the element at time
0; otherwise the sorted row is scanned for the first gap of width at
least 5000 ms (the hardcoded image minimum); if none exists,
`shiftRowsDown(rowIndex + 1)` runs and the element is placed at time 0 of
row `rowIndex + 1`. -/
def galleryImageFallbackDrop (rowElements : List GapElem) (maxTime rowIndex : Int) :
    DropResult :=
  if rowElements.isEmpty then .place rowIndex 0
  else
    match scanGaps 5000 maxTime 0 (sortByStart rowElements) with
    | some t => .place rowIndex t
    | none => .shiftPlace (rowIndex + 1) 0

/-! ## Ghost default durations (TimelineRow.jsx hover and drag-enter) -/

/-- JavaScript `v || d` on a possibly absent number: absent or zero falls
back to the default. -/
def jsOrDefault (v : Option Int) (d : Int) : Int :=
  match v with
  | none => d
  | some x => if x = 0 then d else x

/-- The gallery-image hover branch starts the ghost with
`store.startGalleryGhostDrag(draggedItem.image, 'imageUrl', 5000)`. -/
def galleryImageGhostDuration : Int := 5000

/-- The gallery-video hover branch starts the ghost with
`draggedItem.video?.duration || 10000`. -/
def galleryVideoGhostDuration (intrinsic : Option Int) : Int :=
  jsOrDefault intrinsic 10000

/-- Shallow embedding of the file drag-enter defaults of
`TimelineRow.jsx` lines 1576-1589: element type `imageUrl` with 5000 ms
unless the MIME type begins with `audio/` (then audio, 30000 ms) or
`video/` (then video, 10000 ms).  `jsStartsWith` models the JavaScript
`String.prototype.startsWith` over the character sequence. -/
def jsStartsWith (s pre : String) : Bool := pre.data.isPrefixOf s.data

/-- The drag-enter defaults themselves; see `jsStartsWith` above. -/
def startFileGhostParams (fileType : String) : String × Int :=
  let elementType := "imageUrl"
  let defaultDuration : Int := 5000
  if jsStartsWith fileType "audio/" then ("audio", 30000)
  else if jsStartsWith fileType "video/" then ("video", 10000)
  else (elementType, defaultDuration)

/-! ## Scene synchronization engine (refreshElements.js) -/

/-- A timeline element as the synchronization pass observes it.  The
`throws` field is the failure oracle: it marks an element whose
materialization raises an error.  The remaining flags mirror the checks
of the per-type `switch` in `refreshElementsUtil`. -/
structure RElem where
  id : Nat
  type : String
  row : Int
  throws : Bool
  hasElementId : Bool
  hasFabricObject : Bool
  hideInCanvas : Bool
  timelineOnly : Bool
  src : Option String
deriving DecidableEq, Repr

/-- Shallow embedding of the paint-order comparator of
`refreshElements.js` lines 39-43: a text element after a non-text
element, otherwise `b.row - a.row`. -/
def jsCmp (a b : RElem) : Int :=
  if a.type == "text" && !(b.type == "text") then 1
  else if b.type == "text" && !(a.type == "text") then -1
  else b.row - a.row

/-- The total preorder induced by the comparator: `a` may precede `b`
when the comparator does not order `a` strictly after `b`. -/
def jsLe (a b : RElem) : Prop := jsCmp a b ≤ 0

instance : DecidableRel jsLe := fun a b => Int.decLe (jsCmp a b) 0

instance : IsTrans RElem jsLe where
  trans := by
    intro a b c hab hbc
    unfold jsLe jsCmp at hab hbc ⊢
    by_cases ha : a.type == "text" <;> by_cases hb : b.type == "text" <;>
      by_cases hc : c.type == "text" <;>
      simp [ha, hb, hc] at hab hbc ⊢ <;> omega

instance : IsTotal RElem jsLe where
  total := by
    intro a b
    unfold jsLe jsCmp
    by_cases ha : a.type == "text" <;> by_cases hb : b.type == "text" <;>
      simp [ha, hb] <;> omega

/-- Shallow embedding of `sortedElements` in `refreshElements.js`:
the stable JavaScript sort of the element list by the comparator. -/
def sortedElements (l : List RElem) : List RElem := List.insertionSort jsLe l

/-- Shallow embedding of the cache-busting URL built for an `imageUrl`
load: the source plus a separator and `_cb=` followed by `Date.now()`. -/
def cacheBustUrl (src : String) (now : Nat) : String :=
  src ++ (if src.data.contains '?' then "&" else "?") ++ "_cb=" ++ toString now

/-- An asynchronous image load issued during a pass: the element id, the
cache-busted URL, and the paint index captured for `canvas.moveTo`. -/
structure PendingLoad where
  elemId : Nat
  url : String
  index : Nat
deriving DecidableEq, Repr

/-- Shallow embedding of one iteration of the per-element `switch` in
`refreshElementsUtil`: which element ids reach the canvas during the
pass, and which asynchronous image loads are issued.  The canvas is the
list of element ids in stack order. -/
def materializeOne (now idx : Nat) (e : RElem) (canvas : List Nat)
    (pending : List PendingLoad) : List Nat × List PendingLoad :=
  if e.type == "video" then
    if e.hasElementId then (canvas ++ [e.id], pending) else (canvas, pending)
  else if e.type == "image" || e.type == "imageUrl" then
    if e.hideInCanvas then (canvas, pending)
    else if e.hasFabricObject then (canvas ++ [e.id], pending)
    else if e.type == "image" then
      if e.hasElementId then (canvas ++ [e.id], pending) else (canvas, pending)
    else
      match e.src with
      | some src => (canvas, pending ++ [⟨e.id, cacheBustUrl src now, idx⟩])
      | none => (canvas, pending)
  else if e.type == "text" then
    if e.timelineOnly then (canvas, pending) else (canvas ++ [e.id], pending)
  else (canvas, pending)

/-- Shallow embedding of the `for` loop over the sorted elements: each
element is materialized in turn; an element whose materialization throws
aborts the loop (the single `try` of `refreshElementsUtil` wraps the
whole loop), returning the canvas and loads issued so far and `false`. -/
def processElements (now : Nat) :
    List (Nat × RElem) → List Nat → List PendingLoad →
    List Nat × List PendingLoad × Bool
  | [], canvas, pending => (canvas, pending, true)
  | (idx, e) :: rest, canvas, pending =>
    if e.throws then (canvas, pending, false)
    else
      let step := materializeOne now idx e canvas pending
      processElements now rest step.1 step.2

/-- The state the synchronization pass reads and writes: whether a canvas
exists, the re-entrancy flag `isRefreshingElements`, the retained canvas
(element ids in stack order), the asynchronous loads issued so far, and
the error log. -/
structure SyncState where
  hasCanvas : Bool
  isRefreshingElements : Bool
  canvas : List Nat
  pending : List PendingLoad
  errorLog : List String
deriving DecidableEq, Repr

/-- Shallow embedding of `refreshElementsUtil` in `refreshElements.js`:
return at once without a canvas; return at once when a pass is already in
flight; otherwise set the flag, clear the canvas, process the sorted
elements, log the single pass-level error when the loop threw, and clear
the flag in every case (the `finally` block). -/
def refreshElementsUtil (now : Nat) (elements : List RElem) (s : SyncState) :
    SyncState :=
  if !s.hasCanvas then s
  else if s.isRefreshingElements then s
  else
    let run := processElements now (sortedElements elements).enum [] []
    { hasCanvas := s.hasCanvas
      isRefreshingElements := false
      canvas := run.1
      pending := s.pending ++ run.2.1
      errorLog :=
        if run.2.2 then s.errorLog
        else s.errorLog ++ ["Error in refreshElements"] }

/-- Shallow embedding of fabric `canvas.moveTo(object, index)`: the
object moves to the given stack index (clamped to the stack size). -/
def canvasMoveTo (canvas : List Nat) (objId idx : Nat) : List Nat :=
  let removed := canvas.erase objId
  removed.insertIdx (min idx removed.length) objId

/-- Shallow embedding of the completion callback passed to
`fabric.Image.fromURL` in `refreshElements.js` lines 186-218: the loaded
object is added to the canvas and moved to the paint index captured at
dispatch time, with no check that the issuing pass is still current. -/
def imageLoadCallback (pl : PendingLoad) (canvas : List Nat) : List Nat :=
  canvasMoveTo (canvas ++ [pl.elemId]) pl.elemId pl.index

/-! ## Theorems -/

/-- Claim C1: over the declared kinds, `areTypesCompatible` is symmetric
and matches the policy table of spec section 4.1: text only with text,
animation with every kind except text, the four media kinds mutually
compatible. -/
theorem c1_compatibility_table :
    ∀ a b : Kind,
      areTypesCompatible a.str b.str = areTypesCompatible b.str a.str ∧
      areTypesCompatible a.str b.str = policyCompatible a b := by
  decide

/-- Claim C10: a kind outside the declared set is compatible with nothing
except `animation`; in particular it is incompatible with itself, so a
row led by such an element rejects a drop of its own kind. -/
theorem c10_undeclared_kinds (k x : String)
    (hk : k ∉ declaredKindStrings) (hx : x ≠ "animation") :
    areTypesCompatible k x = false ∧ areTypesCompatible k k = false := by
  simp only [declaredKindStrings, List.mem_cons, List.not_mem_nil, or_false,
    not_or] at hk
  obtain ⟨hv, hi, hiu, ha, ht, han⟩ := hk
  constructor
  · by_cases hxt : x = "text"
    · subst hxt
      simp [areTypesCompatible, ht]
    · simp [areTypesCompatible, mixableTypes, ht, hxt, han, hx, hv, hi, hiu, ha]
  · simp [areTypesCompatible, mixableTypes, ht, han, hv, hi, hiu, ha]

/-- Witness for C10 at the concrete kind `transition`, the tag the
gl-transition drag path itself creates. -/
theorem c10_undeclared_kinds_witness :
    "transition" ∉ declaredKindStrings ∧ "transition" ≠ "animation" ∧
      (areTypesCompatible "transition" "transition" = false ∧
        areTypesCompatible "transition" "transition" = false) :=
  ⟨by decide, by decide,
    c10_undeclared_kinds "transition" "transition" (by decide) (by decide)⟩

/-- Counterexample for C9: a dragged audio file starts its ghost with a
default duration of 30000 ms, not the 10000 ms the claim states. -/
theorem c9_counterexample :
    startFileGhostParams "audio/mpeg" = ("audio", 30000) ∧ (30000 : Int) ≠ 10000 := by
  constructor
  · decide
  · decide

/-- Claim C9 as amended: image sources default to 5000 ms, video sources
to 10000 ms, audio files to 30000 ms; only the gallery-video path uses a
nonzero intrinsic duration, and gallery images are always 5000 ms. -/
theorem c9_amended (fileType : String) (d : Int) :
    (jsStartsWith fileType "audio/" = true →
      startFileGhostParams fileType = ("audio", 30000)) ∧
    (jsStartsWith fileType "audio/" = false → jsStartsWith fileType "video/" = true →
      startFileGhostParams fileType = ("video", 10000)) ∧
    (jsStartsWith fileType "audio/" = false → jsStartsWith fileType "video/" = false →
      startFileGhostParams fileType = ("imageUrl", 5000)) ∧
    galleryImageGhostDuration = 5000 ∧
    (d ≠ 0 → galleryVideoGhostDuration (some d) = d) ∧
    galleryVideoGhostDuration none = 10000 := by
  refine ⟨?_, ?_, ?_, rfl, ?_, rfl⟩
  · intro h
    simp [startFileGhostParams, h]
  · intro h1 h2
    simp [startFileGhostParams, h1, h2]
  · intro h1 h2
    simp [startFileGhostParams, h1, h2]
  · intro hd
    simp [galleryVideoGhostDuration, jsOrDefault, hd]

/-- Witness for C9 at a concrete video MIME type and a concrete intrinsic
duration. -/
theorem c9_amended_witness :
    (jsStartsWith "video/mp4" "audio/" = false) ∧
    (jsStartsWith "video/mp4" "video/" = true) ∧
    startFileGhostParams "video/mp4" = ("video", 10000) ∧
    ((7000 : Int) ≠ 0) ∧ galleryVideoGhostDuration (some 7000) = 7000 :=
  ⟨by decide, by decide,
    (c9_amended "video/mp4" 7000).2.1 (by decide) (by decide), by decide,
    (c9_amended "video/mp4" 7000).2.2.2.2.1 (by decide)⟩

/-- Claim C2: a committed single-element move lands in
`[0, maxTime - duration]` so the element never ends past `maxTime`, and a
drop rejected as incompatible leaves the element list unchanged. -/
theorem c2_single_move_commit (maxTime : Int) (rowType : Option String)
    (elems : List TElem) (dragged : TElem)
    (initialElementStart deltaTime targetRow : Int)
    (hdur : ∀ e ∈ elems, e.id = dragged.id → 0 ≤ e.duration ∧ e.duration ≤ maxTime) :
    (∀ rt, rowType = some rt → areTypesCompatible rt dragged.type = false →
      singleGhostDrop maxTime rowType elems dragged initialElementStart deltaTime
        targetRow = elems) ∧
    ((rowType = none ∨
        ∃ rt, rowType = some rt ∧ areTypesCompatible rt dragged.type = true) →
      ∀ e ∈ singleGhostDrop maxTime rowType elems dragged initialElementStart
          deltaTime targetRow,
        e.id = dragged.id →
          0 ≤ e.timeFrame.start ∧ e.timeFrame.start ≤ maxTime - e.duration ∧
            e.timeFrame.endTime ≤ maxTime) := by
  constructor
  · intro rt hrt hbad
    simp [singleGhostDrop, hrt, hbad]
  · intro hcomp e he heid
    have hbranch : singleGhostDrop maxTime rowType elems dragged
        initialElementStart deltaTime targetRow =
        finishGhostDrag maxTime elems dragged.id
          (max 0 (min maxTime (initialElementStart + deltaTime))) targetRow := by
      rcases hcomp with h | ⟨rt, hrt, hok⟩
      · simp [singleGhostDrop, h]
      · simp [singleGhostDrop, hrt, hok]
    rw [hbranch] at he
    simp only [finishGhostDrag, List.mem_map] at he
    obtain ⟨e0, he0, hfe⟩ := he
    by_cases hid : e0.id = dragged.id
    · rw [if_pos hid] at hfe
      have hd := hdur e0 he0 hid
      unfold TElem.duration at hd
      subst hfe
      simp only [TElem.duration]
      constructor
      · exact le_max_left 0 _
      · constructor
        · omega
        · omega
    · rw [if_neg hid] at hfe
      subst hfe
      exact absurd heid hid

/-- Witness for C2: a video element of duration 3000 dragged far to the
right on a 10000 ms timeline is committed at start 7000, inside
`[0, maxTime - duration]`. -/
theorem c2_single_move_commit_witness :
    (∀ e ∈ [(⟨1, "video", 0, ⟨2000, 5000⟩⟩ : TElem)], e.id = 1 →
      0 ≤ e.duration ∧ e.duration ≤ 10000) ∧
    ((∀ rt, (some "video" : Option String) = some rt →
        areTypesCompatible rt "video" = false →
        singleGhostDrop 10000 (some "video") [⟨1, "video", 0, ⟨2000, 5000⟩⟩]
          ⟨1, "video", 0, ⟨2000, 5000⟩⟩ 2000 9000 2 =
          [⟨1, "video", 0, ⟨2000, 5000⟩⟩]) ∧
      (((some "video" : Option String) = none ∨
          ∃ rt, (some "video" : Option String) = some rt ∧
            areTypesCompatible rt "video" = true) →
        ∀ e ∈ singleGhostDrop 10000 (some "video") [⟨1, "video", 0, ⟨2000, 5000⟩⟩]
            ⟨1, "video", 0, ⟨2000, 5000⟩⟩ 2000 9000 2,
          e.id = 1 →
            0 ≤ e.timeFrame.start ∧ e.timeFrame.start ≤ 10000 - e.duration ∧
              e.timeFrame.endTime ≤ 10000)) :=
  ⟨by decide,
    c2_single_move_commit 10000 (some "video") [⟨1, "video", 0, ⟨2000, 5000⟩⟩]
      ⟨1, "video", 0, ⟨2000, 5000⟩⟩ 2000 9000 2 (by decide)⟩

/-- Claim C3: a committed multi-element move shifts every selected
element by the same delta, so pairwise differences of start times are
unchanged by the commit. -/
theorem c3_multi_move_offsets (maxTime : Int) (initialStarts : List Int)
    (draggedIdx : Nat) (deltaTime : Int) (i j : Nat)
    (hi : i < initialStarts.length) (hj : j < initialStarts.length) :
    (multiGhostDrop maxTime initialStarts draggedIdx deltaTime).getD i 0 -
      (multiGhostDrop maxTime initialStarts draggedIdx deltaTime).getD j 0 =
    initialStarts.getD i 0 - initialStarts.getD j 0 := by
  have key : ∀ (l : List Int) (c : Int) (n : Nat), n < l.length →
      (l.map fun st => st + c).getD n 0 = l.getD n 0 + c := by
    intro l c n hn
    simp [List.getD_eq_getElem?_getD, List.getElem?_map,
      List.getElem?_eq_getElem hn]
  unfold multiGhostDrop finishMultiGhostDrag
  rw [key _ _ i hi, key _ _ j hj]
  omega

/-- Witness for C3: two selected elements at 1000 and 3000 keep their
2000 ms offset through a concrete commit. -/
theorem c3_multi_move_offsets_witness :
    (0 < [(1000 : Int), 3000].length) ∧ (1 < [(1000 : Int), 3000].length) ∧
    (multiGhostDrop 10000 [(1000 : Int), 3000] 0 500).getD 0 0 -
      (multiGhostDrop 10000 [(1000 : Int), 3000] 0 500).getD 1 0 =
    [(1000 : Int), 3000].getD 0 0 - [(1000 : Int), 3000].getD 1 0 :=
  ⟨by decide, by decide,
    c3_multi_move_offsets 10000 [1000, 3000] 0 500 0 1 (by decide) (by decide)⟩

/-- The scanning loop of the gallery-image fallback computes exactly the
first-fit rule over the gap sequence of the sorted row. -/
theorem scanGaps_eq_specFind (threshold maxTime : Int) :
    ∀ (l : List GapElem) (prevEnd : Int),
      scanGaps threshold maxTime prevEnd l =
        ((gapsOf prevEnd maxTime l).find? fun g =>
          threshold ≤ g.2 - g.1).map Prod.fst := by
  intro l
  induction l with
  | nil =>
    intro prevEnd
    by_cases h : maxTime - prevEnd ≥ threshold
    · simp [scanGaps, gapsOf, List.find?, h]
    · simp only [ge_iff_le] at h
      simp [scanGaps, gapsOf, List.find?, h]
  | cons g rest ih =>
    intro prevEnd
    by_cases h : g.start - prevEnd ≥ threshold
    · simp [scanGaps, gapsOf, List.find?, h]
    · simp only [ge_iff_le] at h
      simp [scanGaps, gapsOf, List.find?, h, ih]

/-- Counterexample for C4: with row elements at `[0,2000]` and
`[5000,7000]` and `maxTime = 10000`, the gallery-image fallback finds no
gap of the hardcoded 5000 ms minimum, shifts the rows below down and
places the element at time 0 of the emptied row, not at start 2000 as
the claim states. -/
theorem c4_counterexample :
    galleryImageFallbackDrop [⟨0, 2000⟩, ⟨5000, 7000⟩] 10000 3 =
      DropResult.shiftPlace 4 0 ∧
    galleryImageFallbackDrop [⟨0, 2000⟩, ⟨5000, 7000⟩] 10000 3 ≠
      DropResult.place 3 2000 := by
  constructor
  · decide
  · decide

/-- Claim C4 as amended: the fallback scans the sorted row for the first
gap of width at least the hardcoded 5000 ms image minimum (not the
duration of the insert request) and places the element at its start; when
no such gap exists, rows below are shifted down and the element goes to
time 0 of the emptied row. -/
theorem c4_gap_insertion_amended (rowElements : List GapElem)
    (maxTime rowIndex : Int) (hne : rowElements ≠ []) :
    galleryImageFallbackDrop rowElements maxTime rowIndex =
      match specFirstGap 5000 maxTime (sortByStart rowElements) with
      | some t => DropResult.place rowIndex t
      | none => DropResult.shiftPlace (rowIndex + 1) 0 := by
  unfold galleryImageFallbackDrop specFirstGap
  rw [scanGaps_eq_specFind]
  simp [List.isEmpty_iff, hne]

/-- Witness for C4 at a row whose first sufficient gap starts at 2000. -/
theorem c4_gap_insertion_amended_witness :
    ([(⟨0, 2000⟩ : GapElem), ⟨7000, 9000⟩] ≠ []) ∧
    galleryImageFallbackDrop [⟨0, 2000⟩, ⟨7000, 9000⟩] 10000 3 =
      match specFirstGap 5000 10000 (sortByStart [⟨0, 2000⟩, ⟨7000, 9000⟩]) with
      | some t => DropResult.place 3 t
      | none => DropResult.shiftPlace 4 0 :=
  ⟨by decide, c4_gap_insertion_amended [⟨0, 2000⟩, ⟨7000, 9000⟩] 10000 3 (by decide)⟩

/-- Claim C5: an invocation of the synchronization pass while one is in
flight returns the state unchanged (nothing is queued and the retained
scene is untouched), and a pass that does run leaves the in-flight flag
cleared, on the normal path and on the error path alike. -/
theorem c5_reentrancy_guard (now : Nat) (elements : List RElem) (s : SyncState) :
    (s.isRefreshingElements = true → refreshElementsUtil now elements s = s) ∧
    (s.isRefreshingElements = false →
      (refreshElementsUtil now elements s).isRefreshingElements = false) := by
  constructor
  · intro h
    by_cases hc : s.hasCanvas <;> simp [refreshElementsUtil, hc, h]
  · intro h
    by_cases hc : s.hasCanvas <;> simp [refreshElementsUtil, hc, h]

/-- Witness for C5: a concrete in-flight state is returned unchanged, and
a concrete idle state ends with the flag cleared. -/
theorem c5_reentrancy_guard_witness :
    refreshElementsUtil 0 [] ⟨true, true, [5], [], []⟩ = ⟨true, true, [5], [], []⟩ ∧
    (refreshElementsUtil 0 [] ⟨true, false, [5], [], []⟩).isRefreshingElements =
      false :=
  ⟨(c5_reentrancy_guard 0 [] ⟨true, true, [5], [], []⟩).1 rfl,
    (c5_reentrancy_guard 0 [] ⟨true, false, [5], [], []⟩).2 rfl⟩

/-- Processing a loop segment with no throwing element continues into the
rest of the loop with the accumulated canvas and pending loads. -/
theorem processElements_append (now : Nat) (l1 l2 : List (Nat × RElem))
    (canvas : List Nat) (pending : List PendingLoad)
    (h : ∀ p ∈ l1, p.2.throws = false) :
    processElements now (l1 ++ l2) canvas pending =
      processElements now l2 (processElements now l1 canvas pending).1
        (processElements now l1 canvas pending).2.1 := by
  induction l1 generalizing canvas pending with
  | nil => simp [processElements]
  | cons hd tl ih =>
    obtain ⟨idx, e⟩ := hd
    have he : e.throws = false := h (idx, e) (List.mem_cons_self _ _)
    simp only [List.cons_append, processElements, he, Bool.false_eq_true,
      if_false]
    exact ih _ _ fun p hp => h p (List.mem_cons_of_mem _ hp)

/-- The second component of an indexed pair of the loop belongs to the
underlying element list. -/
theorem snd_mem_of_mem_enumFrom {l : List RElem} :
    ∀ {n : Nat} {p : Nat × RElem}, p ∈ l.enumFrom n → p.2 ∈ l := by
  induction l with
  | nil => intro n p hp; simp [List.enumFrom] at hp
  | cons a as ih =>
    intro n p hp
    rw [List.enumFrom_cons] at hp
    rcases List.mem_cons.mp hp with h | h
    · subst h; exact List.mem_cons_self _ _
    · exact List.mem_cons_of_mem _ (ih h)

/-- Counterexample for C6: a pass over a throwing video element followed
by a sound text element materializes nothing at all; the error in the
first element aborts the second, so failures are not isolated per
element. -/
theorem c6_counterexample :
    (refreshElementsUtil 0
        [⟨1, "video", 0, true, true, false, false, false, none⟩,
          ⟨2, "text", 0, false, false, false, false, false, none⟩]
        ⟨true, false, [], [], []⟩).canvas = [] ∧
    2 ∉ (refreshElementsUtil 0
        [⟨1, "video", 0, true, true, false, false, false, none⟩,
          ⟨2, "text", 0, false, false, false, false, false, none⟩]
        ⟨true, false, [], [], []⟩).canvas ∧
    (refreshElementsUtil 0
        [⟨1, "video", 0, true, true, false, false, false, none⟩,
          ⟨2, "text", 0, false, false, false, false, false, none⟩]
        ⟨true, false, [], [], []⟩).errorLog = ["Error in refreshElements"] := by
  refine ⟨?_, ?_, ?_⟩ <;> decide

/-- Claim C6 as amended: an error while materializing an element is
caught and logged by the single pass-level handler, the loop aborts so
the elements after the throwing one are not materialized in that pass,
and the in-flight flag is still released. -/
theorem c6_error_aborts_pass_amended (now : Nat) (elems : List RElem)
    (s : SyncState) (pre post : List RElem) (e : RElem)
    (hcv : s.hasCanvas = true) (hfl : s.isRefreshingElements = false)
    (hsplit : sortedElements elems = pre ++ e :: post)
    (hpre : ∀ x ∈ pre, x.throws = false) (he : e.throws = true) :
    (refreshElementsUtil now elems s).canvas =
        (processElements now pre.enum [] []).1 ∧
    (refreshElementsUtil now elems s).errorLog =
        s.errorLog ++ ["Error in refreshElements"] ∧
    (refreshElementsUtil now elems s).isRefreshingElements = false := by
  have hrun : processElements now (sortedElements elems).enum [] [] =
      ((processElements now pre.enum [] []).1,
        (processElements now pre.enum [] []).2.1, false) := by
    rw [hsplit, List.enum_append]
    rw [processElements_append now pre.enum _ [] []
      (fun p hp => hpre p.2 (snd_mem_of_mem_enumFrom hp))]
    rw [List.enumFrom_cons]
    simp [processElements, he]
  simp [refreshElementsUtil, hcv, hfl, hrun]

/-- Witness for C6 at a concrete throwing element followed by a text
element. -/
theorem c6_error_aborts_pass_amended_witness :
    ((true : Bool) = true) ∧ ((false : Bool) = false) ∧
    (sortedElements
        [⟨1, "video", 0, true, true, false, false, false, none⟩,
          ⟨2, "text", 0, false, false, false, false, false, none⟩] =
      [] ++ ⟨1, "video", 0, true, true, false, false, false, none⟩ ::
        [⟨2, "text", 0, false, false, false, false, false, none⟩]) ∧
    ((refreshElementsUtil 7
        [⟨1, "video", 0, true, true, false, false, false, none⟩,
          ⟨2, "text", 0, false, false, false, false, false, none⟩]
        ⟨true, false, [], [], ["old"]⟩).canvas =
      (processElements 7 ([] : List RElem).enum [] []).1 ∧
    (refreshElementsUtil 7
        [⟨1, "video", 0, true, true, false, false, false, none⟩,
          ⟨2, "text", 0, false, false, false, false, false, none⟩]
        ⟨true, false, [], [], ["old"]⟩).errorLog =
      ["old"] ++ ["Error in refreshElements"] ∧
    (refreshElementsUtil 7
        [⟨1, "video", 0, true, true, false, false, false, none⟩,
          ⟨2, "text", 0, false, false, false, false, false, none⟩]
        ⟨true, false, [], [], ["old"]⟩).isRefreshingElements = false) :=
  ⟨rfl, rfl, by decide,
    c6_error_aborts_pass_amended 7 _ _ []
      [⟨2, "text", 0, false, false, false, false, false, none⟩]
      ⟨1, "video", 0, true, true, false, false, false, none⟩
      rfl rfl (by decide) (by simp) rfl⟩

/-- Counterexample for C7: two text elements on rows 0 and 1 are swapped
by the paint-order sort, so the text group does not keep its input
order; the comparator orders text elements by descending row as well. -/
theorem c7_counterexample :
    sortedElements
        [⟨1, "text", 0, false, false, false, false, false, none⟩,
          ⟨2, "text", 1, false, false, false, false, false, none⟩] =
      [⟨2, "text", 1, false, false, false, false, false, none⟩,
        ⟨1, "text", 0, false, false, false, false, false, none⟩] ∧
    ([(⟨2, "text", 1, false, false, false, false, false, none⟩ : RElem),
        ⟨1, "text", 0, false, false, false, false, false, none⟩] ≠
      [⟨1, "text", 0, false, false, false, false, false, none⟩,
        ⟨2, "text", 1, false, false, false, false, false, none⟩]) := by
  constructor
  · decide
  · decide

/-- Claim C7 as amended: the paint order is a permutation in which every
text element follows every non-text element, both the non-text group and
the text group are ordered by descending row index, and only elements of
the same group with equal row index keep their relative input order. -/
theorem c7_paint_order_amended (l : List RElem) :
    (sortedElements l).Perm l ∧
    (sortedElements l).Pairwise (fun a b =>
      (¬a.type = "text" ∧ b.type = "text") ∨
      ((a.type = "text" ↔ b.type = "text") ∧ b.row ≤ a.row)) ∧
    (∀ a b : RElem, (a.type = "text" ↔ b.type = "text") → a.row = b.row →
      List.Sublist [a, b] l → List.Sublist [a, b] (sortedElements l)) := by
  refine ⟨List.perm_insertionSort jsLe l, ?_, ?_⟩
  · have hs : (List.insertionSort jsLe l).Pairwise jsLe :=
      List.sorted_insertionSort jsLe l
    refine List.Pairwise.imp ?_ hs
    intro a b hab
    unfold jsLe jsCmp at hab
    by_cases ha : a.type = "text" <;> by_cases hb : b.type = "text" <;>
      simp [ha, hb] at hab ⊢ <;> omega
  · intro a b hg hr hsub
    unfold sortedElements
    apply List.pair_sublist_insertionSort
    · show jsLe a b
      unfold jsLe jsCmp
      by_cases ha : a.type = "text"
      · have hb : b.type = "text" := hg.mp ha
        simp [ha, hb]
        omega
      · have hb : ¬b.type = "text" := fun h => ha (hg.mpr h)
        simp [ha, hb]
        omega
    · exact hsub

/-- Witness for C7: two same-row text elements keep their input order
through the paint sort. -/
theorem c7_paint_order_amended_witness :
    (("text" = "text") ↔ ("text" = "text")) ∧ ((0 : Int) = 0) ∧
    List.Sublist
      [(⟨1, "text", 0, false, false, false, false, false, none⟩ : RElem),
        ⟨2, "text", 0, false, false, false, false, false, none⟩]
      (sortedElements
        [⟨1, "text", 0, false, false, false, false, false, none⟩,
          ⟨2, "text", 0, false, false, false, false, false, none⟩]) :=
  ⟨Iff.rfl, rfl,
    (c7_paint_order_amended
        [⟨1, "text", 0, false, false, false, false, false, none⟩,
          ⟨2, "text", 0, false, false, false, false, false, none⟩]).2.2
      _ _ Iff.rfl rfl (List.Sublist.refl _)⟩

/-- Counterexample for C8: the completion callback of an `imageUrl` load
issued by a first pass still mutates the canvas left by a second pass
over the same element; no liveness or generation check guards it. -/
theorem c8_counterexample :
    (refreshElementsUtil 100
        [⟨7, "imageUrl", 0, false, false, false, false, false, some "http://x/a.png"⟩]
        ⟨true, false, [], [], []⟩).pending =
      [⟨7, "http://x/a.png?_cb=100", 0⟩] ∧
    imageLoadCallback ⟨7, "http://x/a.png?_cb=100", 0⟩
        (refreshElementsUtil 200
          [⟨7, "imageUrl", 0, false, false, false, false, false, some "http://x/a.png"⟩]
          (refreshElementsUtil 100
            [⟨7, "imageUrl", 0, false, false, false, false, false, some "http://x/a.png"⟩]
            ⟨true, false, [], [], []⟩)).canvas ≠
      (refreshElementsUtil 200
        [⟨7, "imageUrl", 0, false, false, false, false, false, some "http://x/a.png"⟩]
        (refreshElementsUtil 100
          [⟨7, "imageUrl", 0, false, false, false, false, false, some "http://x/a.png"⟩]
          ⟨true, false, [], [], []⟩)).canvas := by
  constructor
  · decide
  · decide

/-- Claim C8 as amended: an unrealized `imageUrl` element adds nothing to
the canvas during the pass itself and issues an asynchronous load whose
URL is cache-busted; scene insertion and reordering happen only in the
completion callback, but the callback carries no liveness or generation
check and mutates whatever canvas is current when it fires. -/
theorem c8_image_load_amended (now : Nat) (e : RElem) (s : SyncState) (u : String)
    (hcv : s.hasCanvas = true) (hfl : s.isRefreshingElements = false)
    (htype : e.type = "imageUrl") (hthrow : e.throws = false)
    (hhide : e.hideInCanvas = false) (hfo : e.hasFabricObject = false)
    (hsrc : e.src = some u) :
    (refreshElementsUtil now [e] s).canvas = [] ∧
    (refreshElementsUtil now [e] s).pending =
        s.pending ++ [⟨e.id, cacheBustUrl u now, 0⟩] ∧
    (∀ pl canvas, imageLoadCallback pl canvas ≠ canvas) := by
  have hsort : sortedElements [e] = [e] := by
    simp [sortedElements, List.insertionSort]
  have hrun : processElements now (sortedElements [e]).enum [] [] =
      ([], [⟨e.id, cacheBustUrl u now, 0⟩], true) := by
    rw [hsort]
    simp [List.enum, List.enumFrom, processElements, materializeOne, htype,
      hthrow, hhide, hfo, hsrc]
  refine ⟨?_, ?_, ?_⟩
  · simp [refreshElementsUtil, hcv, hfl, hrun]
  · simp [refreshElementsUtil, hcv, hfl, hrun]
  · intro pl canvas h
    have h1 : pl.elemId ∈ canvas ++ [pl.elemId] := by simp
    have h2 : ((canvas ++ [pl.elemId]).erase pl.elemId).length = canvas.length := by
      rw [List.length_erase_of_mem h1]
      simp
    have h3 : (imageLoadCallback pl canvas).length =
        ((canvas ++ [pl.elemId]).erase pl.elemId).length + 1 := by
      unfold imageLoadCallback canvasMoveTo
      exact List.length_insertIdx _ _ (min_le_right _ _)
    have h4 := congrArg List.length h
    rw [h3, h2] at h4
    omega

/-- Witness for C8 at a concrete unrealized remote image element. -/
theorem c8_image_load_amended_witness :
    ((true : Bool) = true) ∧ ("imageUrl" = "imageUrl") ∧
    ((refreshElementsUtil 42
        [⟨9, "imageUrl", 2, false, false, false, false, false, some "http://y/b.png?v=1"⟩]
        ⟨true, false, [3], [], []⟩).canvas = [] ∧
    (refreshElementsUtil 42
        [⟨9, "imageUrl", 2, false, false, false, false, false, some "http://y/b.png?v=1"⟩]
        ⟨true, false, [3], [], []⟩).pending =
      [] ++ [⟨9, cacheBustUrl "http://y/b.png?v=1" 42, 0⟩] ∧
    (∀ pl canvas, imageLoadCallback pl canvas ≠ canvas)) :=
  ⟨rfl, rfl,
    c8_image_load_amended 42
      ⟨9, "imageUrl", 2, false, false, false, false, false, some "http://y/b.png?v=1"⟩
      ⟨true, false, [3], [], []⟩ "http://y/b.png?v=1" rfl rfl rfl rfl rfl rfl rfl⟩
